import Mathlib

/-!
Verification of the Twitter-to-Bluesky forwarder (`src/twitter_to_bluesky.py`).

The development shallowly embeds the parts of the program that the claims
are about:

* the Python string primitives the filter policy uses (`str.startswith`,
  `str.strip`, `in`, `str.replace(old, "")`, string `>`), implemented here
  as structurally recursive functions over `List Char` so that every
  definition evaluates inside the kernel;
* the content filter `is_mention_or_retweet`;
* the per-account pass `process_new_tweets`, with the in-memory watermark
  dictionary `last_tweet_ids` and the persisted bookmark file modelled as
  the two fields of `ProcState`.  External effects are made explicit: the
  fetch result is an input (`Except Unit (List Tweet)`, an error models a
  tweepy exception caught inside `get_user_tweets`), the Bluesky publish
  call is an input function `String → Bool` giving the success of each
  `post_to_bluesky` call, and the pass result records the ids passed to
  the publisher in call order together with whether the bookmark file was
  written (`saved`).
-/

/-- Lexicographic comparison of char lists by code point, the embedding of
Python string `<` (and hence of `str(tweet.id) > last_tweet_id`, which is
`listLt last_tweet_id id`). -/
def listLt : List Char → List Char → Bool
  | [], [] => false
  | [], _ :: _ => true
  | _ :: _, [] => false
  | a :: as, b :: bs =>
    Nat.blt a.toNat b.toNat || (a.toNat == b.toNat && listLt as bs)

/-- `headMatch s pat` is true when `pat` is an initial segment of `s`
(Python `s.startswith(pat)` restricted to the head position). -/
def headMatch : List Char → List Char → Bool
  | _, [] => true
  | [], _ :: _ => false
  | a :: as, b :: bs => (a.toNat == b.toNat) && headMatch as bs

/-- `occursIn pat s` is true when `pat` occurs contiguously in `s`
(Python `pat in s`). -/
def occursIn (pat : List Char) : List Char → Bool
  | [] => headMatch [] pat
  | c :: rest => headMatch (c :: rest) pat || occursIn pat rest

/-- Remove every (leftmost, non-overlapping) occurrence of `pat`, the
embedding of Python `s.replace(pat, '')`.  The `Nat` argument is fuel,
instantiated with the length of the scanned list; each step consumes at
least one character, so that much fuel always suffices, and the fuel
formulation keeps the function structurally recursive (kernel-reducible). -/
def dropPatGo (pat : List Char) : Nat → List Char → List Char
  | _, [] => []
  | 0, s => s
  | fuel + 1, c :: rest =>
    if pat.isEmpty then c :: rest
    else if headMatch (c :: rest) pat then
      dropPatGo pat fuel (List.drop (pat.length - 1) rest)
    else c :: dropPatGo pat fuel rest

/-- The whitespace class of Python's argument-less `str.strip`:
space, tab, newline, carriage return, vertical tab, form feed. -/
def pySpace (c : Char) : Bool :=
  c.toNat == 32 || c.toNat == 9 || c.toNat == 10 ||
    c.toNat == 13 || c.toNat == 11 || c.toNat == 12

/-- Python `s.startswith(pat)`. -/
def pyStartsWith (s pat : String) : Bool :=
  headMatch s.data pat.data

/-- Python `s.strip()`: drop leading and trailing whitespace. -/
def pyStrip (s : String) : String :=
  String.mk (((s.data.dropWhile pySpace).reverse.dropWhile pySpace).reverse)

/-- Python `pat in s` (contiguous substring test). -/
def pyContains (s pat : String) : Bool :=
  occursIn pat.data s.data

/-- Python `s.replace(pat, '')`. -/
def pyReplaceEmpty (s pat : String) : String :=
  String.mk (dropPatGo pat.data s.data.length s.data)

/-- Python string `a < b` (code-point lexicographic). -/
def pyStrLt (a b : String) : Bool :=
  listLt a.data b.data

/-- The fields of a tweepy status object that the program reads:
`str(tweet.id)` (kept as the string the program compares), `full_text`,
whether the object carries a `retweeted_status` attribute, and the
display strings `url['url']` of `tweet.entities['urls']`. -/
structure Tweet where
  id : String
  full_text : String
  retweeted : Bool
  urls : List String
deriving DecidableEq

/-- The local variable `text_without_url` of `is_mention_or_retweet`
(lines 246-248): the full text with every entity URL replaced by `''`,
in list order. -/
def text_without_url (t : Tweet) : String :=
  t.urls.foldl (fun acc u => pyReplaceEmpty acc u) t.full_text

/-- `TwitterToBluesky.is_mention_or_retweet` (lines 222-255), with the
source's exact three-step structure: retweet check, mention check, then
the quote-retweet check guarded by the two twitter hostname literals. -/
def is_mention_or_retweet (t : Tweet) : Bool :=
  if t.retweeted || pyStartsWith t.full_text "RT @" then true
  else if pyStartsWith (pyStrip t.full_text) "@" then true
  else if pyContains t.full_text "https://twitter.com/"
      || pyContains t.full_text "https://x.com/" then
    if Nat.blt (pyStrip (text_without_url t)).length 10 then true else false
  else false

/-- The first exclusion rule in isolation (line 233):
`hasattr(tweet, 'retweeted_status') or tweet.full_text.startswith('RT @')`. -/
def rule_retweet (t : Tweet) : Bool :=
  t.retweeted || pyStartsWith t.full_text "RT @"

/-- The second exclusion rule in isolation (line 238):
`tweet.full_text.strip().startswith('@')`. -/
def mention_rule (t : Tweet) : Bool :=
  pyStartsWith (pyStrip t.full_text) "@"

/-- The third exclusion rule in isolation (lines 243-253): a twitter link
is present and the text minus the entity URLs strips to fewer than 10
characters. -/
def quote_rule (t : Tweet) : Bool :=
  (pyContains t.full_text "https://twitter.com/"
      || pyContains t.full_text "https://x.com/")
    && Nat.blt (pyStrip (text_without_url t)).length 10

/-- The `if`-chain of `is_mention_or_retweet` is the disjunction of the
three rules. -/
theorem is_mention_or_retweet_eq (t : Tweet) :
    is_mention_or_retweet t = (rule_retweet t || mention_rule t || quote_rule t) := by
  unfold is_mention_or_retweet rule_retweet mention_rule quote_rule
  cases h1 : t.retweeted || pyStartsWith t.full_text "RT @" <;>
    cases h2 : pyStartsWith (pyStrip t.full_text) "@" <;>
      cases h3 : pyContains t.full_text "https://twitter.com/"
          || pyContains t.full_text "https://x.com/" <;>
        cases h4 : Nat.blt (pyStrip (text_without_url t)).length 10 <;>
          simp [h1, h2, h3, h4]

/-- The mutable state of a `TwitterToBluesky` object that
`process_new_tweets` touches: the in-memory dictionary
`self.last_tweet_ids` and the contents of the persisted bookmark file
`last_tweet_id.json` (both map a username to the last recorded tweet id;
`none` means the key is absent). -/
structure ProcState where
  mem : String → Option String
  disk : String → Option String

/-- The observable outcome of one `process_new_tweets` call: the state
afterwards, the returned `processed_count`, the tweet ids handed to
`post_to_bluesky` in call order, and whether `_save_last_tweet_ids` ran. -/
structure PassResult where
  st : ProcState
  count : Nat
  published : List String
  saved : Bool

/-- Python truthiness of `last_tweet_id` in `if last_tweet_id:` (line 303):
true exactly for a present, non-empty string. -/
def py_truthy : Option String → Bool
  | none => false
  | some s => !s.data.isEmpty

/-- `TwitterToBluesky.get_user_tweets` (lines 196-220) as seen by its
caller: the tweepy call either yields a list of statuses or raises, and
the surrounding handler turns any exception into `[]`. -/
def get_user_tweets (resp : Except Unit (List Tweet)) : List Tweet :=
  match resp with
  | Except.ok ts => ts
  | Except.error _ => []

/-- The `new_tweets` selection of `process_new_tweets` (lines 301-310):
with a truthy watermark, keep the fetched tweets whose id string is
strictly greater; otherwise take the first fetched tweet only. -/
def new_tweets_of (last : Option String) (tweets : List Tweet) : List Tweet :=
  if py_truthy last then
    tweets.filter (fun t => pyStrLt (last.getD "") t.id)
  else
    match tweets with
    | [] => []
    | t0 :: _ => [t0]

/-- The `filtered_tweets` list of `process_new_tweets` (line 313): the
selected tweets that the content filter does not exclude. -/
def filtered_tweets_of (last : Option String) (tweets : List Tweet) : List Tweet :=
  (new_tweets_of last tweets).filter (fun t => !is_mention_or_retweet t)

/-- One iteration of the publish loop (lines 327-335) over the
accumulator (in-memory map, `processed_count`, publish-call trace):
attempt the publish, bump the count on success, and unconditionally set
`last_tweet_ids[username]` to this tweet's id. -/
def pubStep (username : String) (publish : String → Bool)
    (acc : (String → Option String) × Nat × List String) (t : Tweet) :
    (String → Option String) × Nat × List String :=
  (fun k => if k = username then some t.id else acc.1 k,
   if publish t.full_text then acc.2.1 + 1 else acc.2.1,
   acc.2.2 ++ [t.id])

/-- `TwitterToBluesky.process_new_tweets` (lines 279-345).  An empty (or
failed) fetch returns 0 with the state untouched; otherwise the selected
and filtered tweets are published in list order, and the bookmark file is
rewritten with the whole in-memory map only when `filtered_tweets` is
non-empty (line 324's `if filtered_tweets:` guards both the loop and the
save). -/
def process_new_tweets (st : ProcState) (username : String)
    (resp : Except Unit (List Tweet)) (publish : String → Bool) : PassResult :=
  match get_user_tweets resp with
  | [] => ⟨st, 0, [], false⟩
  | t0 :: rest =>
    let filtered := filtered_tweets_of (st.mem username) (t0 :: rest)
    let r := filtered.foldl (pubStep username publish) (st.mem, 0, [])
    if filtered.isEmpty then ⟨st, 0, [], false⟩
    else ⟨⟨r.1, r.1⟩, r.2.1, r.2.2, true⟩

/-- A sequence of polling cycles for one username (the per-user step of
`run` / `run_once`, lines 365-387 and 405-420, restricted to a single
account): thread the state through successive `process_new_tweets` calls,
one fetch result per cycle, and concatenate the publish-call traces. -/
def run_cycles (st : ProcState) (username : String)
    (fetches : List (Except Unit (List Tweet))) (publish : String → Bool) :
    ProcState × List String :=
  fetches.foldl
    (fun acc resp =>
      let r := process_new_tweets acc.1 username resp publish
      (r.st, acc.2 ++ r.published))
    (st, [])

/-- `TwitterToBluesky._load_last_tweet_ids` (lines 167-185): the file
either does not exist, or reading and JSON-decoding it yields a mapping
or raises; the `except` handler turns a missing file or any read error
into the empty mapping, so the function is total (never raises). -/
def load_last_tweet_ids (fileExists : Bool)
    (readResult : Except Unit (String → Option String)) : String → Option String :=
  if fileExists then
    match readResult with
    | Except.ok m => m
    | Except.error _ => fun _ => none
  else fun _ => none

/-- Selecting from an empty fetch result yields nothing, in both branches
of the watermark test. -/
theorem new_tweets_of_nil (last : Option String) : new_tweets_of last [] = [] := by
  simp [new_tweets_of]

/-- The publish loop never writes a key other than the processed
username. -/
theorem foldl_pubStep_mem_other (l : List Tweet) (u : String) (p : String → Bool)
    (acc : (String → Option String) × Nat × List String) (v : String) (hvu : v ≠ u) :
    (l.foldl (pubStep u p) acc).1 v = acc.1 v := by
  induction l generalizing acc with
  | nil => rfl
  | cons t l ih =>
    rw [List.foldl_cons, ih]
    simp [pubStep, hvu]

/-- The publish loop calls the publisher once per tweet, in list order,
appending the ids to the trace. -/
theorem foldl_pubStep_pub (l : List Tweet) (u : String) (p : String → Bool)
    (acc : (String → Option String) × Nat × List String) :
    (l.foldl (pubStep u p) acc).2.2 = acc.2.2 ++ l.map Tweet.id := by
  induction l generalizing acc with
  | nil => simp
  | cons t l ih =>
    rw [List.foldl_cons, ih]
    simp [pubStep]

/-- The in-memory map produced by the publish loop does not depend on the
publish outcomes (nor on the count/trace accumulators): line 335 runs
whether or not `post_to_bluesky` succeeded. -/
theorem foldl_pubStep_mem_indep (l : List Tweet) (u : String) (p q : String → Bool)
    (m : String → Option String) (c₁ c₂ : Nat) (ps₁ ps₂ : List String) :
    (l.foldl (pubStep u p) (m, c₁, ps₁)).1 = (l.foldl (pubStep u q) (m, c₂, ps₂)).1 := by
  induction l generalizing m c₁ c₂ ps₁ ps₂ with
  | nil => rfl
  | cons t l ih =>
    rw [List.foldl_cons, List.foldl_cons]
    simp only [pubStep]
    exact ih _ _ _ _ _

/-- After the publish loop, the processed username's in-memory watermark
is the id of the last tweet of the loop (or is untouched when the loop
was empty). -/
theorem foldl_pubStep_mem_last (l : List Tweet) (u : String) (p : String → Bool)
    (acc : (String → Option String) × Nat × List String) :
    (l.foldl (pubStep u p) acc).1 u =
      l.getLast?.elim (acc.1 u) (fun t => some t.id) := by
  induction l generalizing acc with
  | nil => rfl
  | cons t l ih =>
    rw [List.foldl_cons, ih]
    cases l with
    | nil => simp [pubStep]
    | cons s l2 =>
      rw [List.getLast?_cons_cons]
      cases h : (s :: l2).getLast? with
      | none => simp at h
      | some x => rfl

/-- The trace of ids handed to `post_to_bluesky` by one pass is exactly
the filtered selection, in the order of the fetched list. -/
theorem process_published_eq (st : ProcState) (u : String)
    (resp : Except Unit (List Tweet)) (p : String → Bool) :
    (process_new_tweets st u resp p).published =
      (filtered_tweets_of (st.mem u) (get_user_tweets resp)).map Tweet.id := by
  cases resp with
  | error e => simp [process_new_tweets, get_user_tweets, filtered_tweets_of, new_tweets_of_nil]
  | ok ts =>
    cases ts with
    | nil => simp [process_new_tweets, get_user_tweets, filtered_tweets_of, new_tweets_of_nil]
    | cons t0 rest =>
      cases h : (filtered_tweets_of (st.mem u) (t0 :: rest)).isEmpty with
      | true =>
        rw [List.isEmpty_iff] at h
        simp [process_new_tweets, get_user_tweets, h]
      | false =>
        simp [process_new_tweets, get_user_tweets, h, foldl_pubStep_pub]

/-- Concrete fixture: a state whose in-memory map records watermark "5"
for user "u" and nothing else; the bookmark file starts empty. -/
def stW5 : ProcState := ⟨fun k => if k = "u" then some "5" else none, fun _ => none⟩

/-- Concrete fixture: a plain tweet with id 4. -/
def tweet4 : Tweet := ⟨"4", "four four four", false, []⟩

/-- Concrete fixture: a plain tweet with id 5. -/
def tweet5 : Tweet := ⟨"5", "five five five", false, []⟩

/-- Concrete fixture: a plain tweet with id 6. -/
def tweet6 : Tweet := ⟨"6", "six six six", false, []⟩

/-- Concrete fixture: a plain tweet with id 7. -/
def tweet7 : Tweet := ⟨"7", "seven seven", false, []⟩

/-- Concrete fixture: a publish adapter that fails exactly on tweet6's
text and succeeds on every other text. -/
def pubFailSix : String → Bool := fun s => !(decide (s = "six six six"))

/-- Ascending-order predicate on an id trace: each id is strictly below
every later one in Python string order. -/
def IdsAscending (l : List String) : Prop :=
  List.Pairwise (fun a b => pyStrLt a b = true) l

/-- Claim C5: the exclusion predicate returns true for every post whose
retweet flag is set, for every post whose text begins with the literal
"RT @", and for every post whose trimmed text starts with "@"; a post
whose text is "thanks @bob!" is not excluded by the mention rule. -/
theorem c5_exclusion_rules (t : Tweet) :
    (t.retweeted = true → is_mention_or_retweet t = true) ∧
    (pyStartsWith t.full_text "RT @" = true → is_mention_or_retweet t = true) ∧
    (pyStartsWith (pyStrip t.full_text) "@" = true → is_mention_or_retweet t = true) ∧
    mention_rule ⟨"9", "thanks @bob!", false, []⟩ = false := by
  refine ⟨?_, ?_, ?_, by decide⟩
  · intro h; rw [is_mention_or_retweet_eq]; simp [rule_retweet, h]
  · intro h; rw [is_mention_or_retweet_eq]; simp [rule_retweet, h]
  · intro h; rw [is_mention_or_retweet_eq]; simp [mention_rule, h]

/-- Claim C5 witness: concrete posts triggering each rule — a
flag-retweet, a textual "RT @" retweet, a leading-mention post — and the
non-excluded "thanks @bob!" post. -/
theorem c5_exclusion_rules_witness :
    is_mention_or_retweet ⟨"1", "RT @alice: hi", true, []⟩ = true ∧
    is_mention_or_retweet ⟨"2", "RT @carol: yo", false, []⟩ = true ∧
    is_mention_or_retweet ⟨"3", "@bob thanks!", false, []⟩ = true ∧
    mention_rule ⟨"9", "thanks @bob!", false, []⟩ = false :=
  ⟨(c5_exclusion_rules ⟨"1", "RT @alice: hi", true, []⟩).1 (by decide),
   (c5_exclusion_rules ⟨"2", "RT @carol: yo", false, []⟩).2.1 (by decide),
   (c5_exclusion_rules ⟨"3", "@bob thanks!", false, []⟩).2.2.1 (by decide),
   (c5_exclusion_rules ⟨"3", "@bob thanks!", false, []⟩).2.2.2⟩

/-- Claim C6: the quote-repost rule fires on a post whose text contains
one of the source platform's two hostnames and whose text, after
removing every embedded URL, strips to fewer than 10 characters (and then
the whole predicate excludes the post); with an empty embedded-URL list
the remainder is the full text itself; a remainder of 10 or more
characters never triggers this rule. -/
theorem c6_quote_rule (t : Tweet) (i ft : String) (r : Bool) :
    (text_without_url ⟨i, ft, r, []⟩ = ft) ∧
    ((pyContains t.full_text "https://twitter.com/"
        || pyContains t.full_text "https://x.com/") = true →
      Nat.blt (pyStrip (text_without_url t)).length 10 = true →
        quote_rule t = true ∧ is_mention_or_retweet t = true) ∧
    (Nat.blt (pyStrip (text_without_url t)).length 10 = false →
      quote_rule t = false) := by
  refine ⟨rfl, ?_, ?_⟩
  · intro h1 h2
    have hq : quote_rule t = true := by simp [quote_rule, h1, h2]
    exact ⟨hq, by rw [is_mention_or_retweet_eq]; simp [hq]⟩
  · intro h
    simp [quote_rule, h]

/-- Claim C6 witness: a short-remainder quote post is excluded ("cool",
4 characters after stripping the URL), a long-remainder one is not
("check this here", 15 characters), and with no embedded URLs the
remainder is the untouched text. -/
theorem c6_quote_rule_witness :
    text_without_url ⟨"0", "just text", false, []⟩ = "just text" ∧
    (quote_rule ⟨"3", "cool https://twitter.com/a/status/1", false,
        ["https://twitter.com/a/status/1"]⟩ = true ∧
      is_mention_or_retweet ⟨"3", "cool https://twitter.com/a/status/1", false,
        ["https://twitter.com/a/status/1"]⟩ = true) ∧
    quote_rule ⟨"4", "check this here https://twitter.com/a/status/1", false,
      ["https://twitter.com/a/status/1"]⟩ = false :=
  ⟨(c6_quote_rule ⟨"0", "just text", false, []⟩ "0" "just text" false).1,
   (c6_quote_rule ⟨"3", "cool https://twitter.com/a/status/1", false,
      ["https://twitter.com/a/status/1"]⟩ "0" "x" false).2.1 (by decide) (by decide),
   (c6_quote_rule ⟨"4", "check this here https://twitter.com/a/status/1", false,
      ["https://twitter.com/a/status/1"]⟩ "0" "x" false).2.2 (by decide)⟩

/-- Claim C7: loading the bookmark file returns the empty mapping both
when the file is missing and when reading or JSON-decoding it fails; the
load is a total function of its inputs (the catch-all handler means no
exception reaches the caller). -/
theorem c7_load_fails_soft (readResult : Except Unit (String → Option String)) :
    load_last_tweet_ids false readResult = (fun _ => none) ∧
    load_last_tweet_ids true (Except.error ()) = (fun _ => none) :=
  ⟨rfl, rfl⟩

/-- Claim C9: one pass for a username writes at most that username's
in-memory watermark entry; every other username's entry is unchanged. -/
theorem c9_frame (st : ProcState) (u v : String)
    (resp : Except Unit (List Tweet)) (p : String → Bool) (hvu : v ≠ u) :
    (process_new_tweets st u resp p).st.mem v = st.mem v := by
  cases resp with
  | error e => rfl
  | ok ts =>
    cases ts with
    | nil => rfl
    | cons t0 rest =>
      cases h : (filtered_tweets_of (st.mem u) (t0 :: rest)).isEmpty with
      | true => simp [process_new_tweets, get_user_tweets, h]
      | false =>
        simp [process_new_tweets, get_user_tweets, h,
          foldl_pubStep_mem_other _ _ _ _ _ hvu]

/-- Claim C9 witness: processing user "u" leaves user "v"'s recorded
watermark exactly as it was. -/
theorem c9_frame_witness :
    ("v" : String) ≠ "u" ∧
    (process_new_tweets
        ⟨fun k => if k = "u" then some "5" else if k = "v" then some "9" else none,
          fun _ => none⟩ "u"
        (Except.ok [tweet7]) (fun _ => true)).st.mem "v" =
      (⟨fun k => if k = "u" then some "5" else if k = "v" then some "9" else none,
        fun _ => none⟩ : ProcState).mem "v" :=
  ⟨by decide, c9_frame _ "u" "v" _ _ (by decide)⟩

/-- Claim C10: a failed fetch (the tweepy-exception path of
`get_user_tweets`) and an empty fetch both make the pass return 0 and
leave the in-memory map, the bookmark file, the publish trace and the
save flag untouched. -/
theorem c10_empty_fetch_no_effect (st : ProcState) (u : String) (p : String → Bool) :
    process_new_tweets st u (Except.error ()) p = ⟨st, 0, [], false⟩ ∧
    process_new_tweets st u (Except.ok []) p = ⟨st, 0, [], false⟩ :=
  ⟨rfl, rfl⟩

/-- Claim C4: with no watermark recorded for the username and a non-empty
fetch, exactly the first fetched post is selected, and under the fetch
adapter's newest-first ordering that post is the most recent one (no
older post enters the selection). -/
theorem c4_bootstrap (st : ProcState) (u : String) (t0 : Tweet) (rest : List Tweet)
    (hw : st.mem u = none)
    (hnewest : ∀ t ∈ rest, pyStrLt t.id t0.id = true) :
    new_tweets_of (st.mem u) (t0 :: rest) = [t0] ∧
    ∀ t ∈ t0 :: rest, t = t0 ∨ pyStrLt t.id t0.id = true := by
  constructor
  · rw [hw]; rfl
  · intro t ht
    rcases List.mem_cons.mp ht with h | h
    · exact Or.inl h
    · exact Or.inr (hnewest t h)

/-- Claim C4 witness: no watermark, fetch returns ids 7,6,5 newest first;
only the post with id 7 is selected. -/
theorem c4_bootstrap_witness :
    ((⟨fun _ => none, fun _ => none⟩ : ProcState).mem "u" = none) ∧
    (∀ t ∈ [tweet6, tweet5], pyStrLt t.id tweet7.id = true) ∧
    (new_tweets_of ((⟨fun _ => none, fun _ => none⟩ : ProcState).mem "u")
        (tweet7 :: [tweet6, tweet5]) = [tweet7] ∧
      ∀ t ∈ tweet7 :: [tweet6, tweet5], t = tweet7 ∨ pyStrLt t.id tweet7.id = true) :=
  ⟨by decide, by decide,
   c4_bootstrap ⟨fun _ => none, fun _ => none⟩ "u" tweet7 [tweet6, tweet5]
     (by decide) (by decide)⟩

/-- Claim C8 counterexample: with watermark "5" the fetch returns one
newer post which is a retweet; the selection step picks it (the selected
list is non-empty), the filter then drops it, and the pass neither calls
`_save_last_tweet_ids` nor touches the bookmark file — the watermark
mapping is not persisted for this account's cycle, contradicting the
claim that it is persisted after every processed selection. -/
theorem c8_counterexample :
    new_tweets_of (stW5.mem "u") [⟨"6", "RT @a: x", false, []⟩] =
      [⟨"6", "RT @a: x", false, []⟩] ∧
    (process_new_tweets stW5 "u" (Except.ok [⟨"6", "RT @a: x", false, []⟩])
      (fun _ => true)).saved = false ∧
    (process_new_tweets stW5 "u" (Except.ok [⟨"6", "RT @a: x", false, []⟩])
      (fun _ => true)).st.disk "u" = none ∧
    stW5.mem "u" = some "5" :=
  ⟨by decide, by decide, by decide, by decide⟩

/-- Claim C8 amended: the bookmark file is written exactly when the
filtered selection is non-empty (`if filtered_tweets:` on line 324 guards
the save); when every selected post is excluded, or nothing is selected,
the save is skipped and the file keeps its previous contents, and when
the save does run it receives the whole updated in-memory mapping. -/
theorem c8_save_iff_filtered (st : ProcState) (u : String)
    (resp : Except Unit (List Tweet)) (p : String → Bool) :
    ((process_new_tweets st u resp p).saved =
      !(filtered_tweets_of (st.mem u) (get_user_tweets resp)).isEmpty) ∧
    ((process_new_tweets st u resp p).st.disk =
      if (filtered_tweets_of (st.mem u) (get_user_tweets resp)).isEmpty then st.disk
      else (process_new_tweets st u resp p).st.mem) := by
  cases resp with
  | error e =>
    constructor
    · simp [process_new_tweets, get_user_tweets, filtered_tweets_of, new_tweets_of_nil]
    · simp [process_new_tweets, get_user_tweets, filtered_tweets_of, new_tweets_of_nil]
  | ok ts =>
    cases ts with
    | nil =>
      constructor
      · simp [process_new_tweets, get_user_tweets, filtered_tweets_of, new_tweets_of_nil]
      · simp [process_new_tweets, get_user_tweets, filtered_tweets_of, new_tweets_of_nil]
    | cons t0 rest =>
      cases h : (filtered_tweets_of (st.mem u) (t0 :: rest)).isEmpty with
      | true =>
        constructor
        · simp [process_new_tweets, get_user_tweets, h]
        · simp [process_new_tweets, get_user_tweets, h]
      | false =>
        constructor
        · simp [process_new_tweets, get_user_tweets, h]
        · simp [process_new_tweets, get_user_tweets, h]

/-- Claim C2 counterexample: with watermark "5" and the fetch returning
ids 7,6,5,4 — the newest-first order the timeline call produces and the
order line 310's bootstrap assumes — the selection is exactly posts 6 and
7, but they are published 7 then 6: the publish trace is not in ascending
id order, contradicting the claim's order clause. -/
theorem c2_counterexample :
    (process_new_tweets stW5 "u" (Except.ok [tweet7, tweet6, tweet5, tweet4])
      (fun _ => true)).published = ["7", "6"] ∧
    ¬ IdsAscending ["7", "6"] := by
  constructor
  · decide
  · intro h
    have h76 : pyStrLt "7" "6" = true :=
      List.rel_of_pairwise_cons h (List.mem_cons_self "6" [])
    exact absurd h76 (by decide)

/-- Claim C2 amended: with a (truthy) watermark w recorded for the
username, the pass selects exactly the fetched posts whose id string is
strictly greater than w under Python string comparison, and publishes the
non-excluded selected posts in the order of the fetched list — the code
performs no reordering, so the trace is in ascending id order exactly
when the fetched list itself is ascending (with watermark "5" and an
ascending fetch 4,5,6,7 this publishes 6 then 7; with the newest-first
fetch it publishes 7 then 6). -/
theorem c2_amended (st : ProcState) (u w : String) (tweets : List Tweet)
    (p : String → Bool) (hw : st.mem u = some w) (htr : py_truthy (some w) = true) :
    (new_tweets_of (st.mem u) tweets = tweets.filter (fun t => pyStrLt w t.id)) ∧
    ((process_new_tweets st u (Except.ok tweets) p).published =
      (filtered_tweets_of (st.mem u) tweets).map Tweet.id) ∧
    (IdsAscending (tweets.map Tweet.id) →
      IdsAscending ((process_new_tweets st u (Except.ok tweets) p).published)) := by
  have hsel : new_tweets_of (st.mem u) tweets = tweets.filter (fun t => pyStrLt w t.id) := by
    rw [hw]; simp [new_tweets_of, htr]
  refine ⟨hsel, process_published_eq st u (Except.ok tweets) p, ?_⟩
  intro hasc
  unfold IdsAscending at hasc ⊢
  rw [process_published_eq, List.pairwise_map]
  show List.Pairwise _ (filtered_tweets_of (st.mem u) tweets)
  unfold filtered_tweets_of
  rw [hsel]
  rw [List.pairwise_map] at hasc
  exact (hasc.filter _).filter _

/-- Claim C2 amended witness: watermark "5", ascending fetch 4,5,6,7 —
the selection filter and the publish trace behave as stated. -/
theorem c2_amended_witness :
    stW5.mem "u" = some "5" ∧ py_truthy (some "5") = true ∧
    ((new_tweets_of (stW5.mem "u") [tweet4, tweet5, tweet6, tweet7] =
        [tweet4, tweet5, tweet6, tweet7].filter (fun t => pyStrLt "5" t.id)) ∧
      ((process_new_tweets stW5 "u" (Except.ok [tweet4, tweet5, tweet6, tweet7])
          (fun _ => true)).published =
        (filtered_tweets_of (stW5.mem "u") [tweet4, tweet5, tweet6, tweet7]).map Tweet.id) ∧
      (IdsAscending ([tweet4, tweet5, tweet6, tweet7].map Tweet.id) →
        IdsAscending ((process_new_tweets stW5 "u"
          (Except.ok [tweet4, tweet5, tweet6, tweet7]) (fun _ => true)).published))) :=
  ⟨by decide, by decide,
   c2_amended stW5 "u" "5" [tweet4, tweet5, tweet6, tweet7] (fun _ => true)
     (by decide) (by decide)⟩

/-- Claim C3 counterexample: watermark "5", newest-first fetch of posts 7
then 6, the publish of post 6's text fails while post 7's succeeds; both
are attempted (the trace holds both ids), yet the final in-memory and
persisted watermark for the user is "6", not "7": the code processes the
fetched newest-first order and line 335 overwrites the watermark at every
iteration, so it ends at the oldest selected id. -/
theorem c3_counterexample :
    (process_new_tweets stW5 "u" (Except.ok [tweet7, tweet6]) pubFailSix).published =
      ["7", "6"] ∧
    (process_new_tweets stW5 "u" (Except.ok [tweet7, tweet6]) pubFailSix).st.mem "u" =
      some "6" ∧
    (process_new_tweets stW5 "u" (Except.ok [tweet7, tweet6]) pubFailSix).st.disk "u" =
      some "6" ∧
    (some "6" : Option String) ≠ some "7" :=
  ⟨by decide, by decide, by decide, by decide⟩

/-- Claim C3 amended: the watermark bookkeeping of a pass is independent
of the publish outcomes — for any two publish-success patterns the
resulting in-memory map, bookmark file, publish trace and save flag all
coincide (only the returned count differs) — and the username's final
in-memory watermark is the id of the last filtered post in fetched order
(unchanged when no post survives).  Hence with the ascending fetch 6 then
7, where publishing 6 fails and 7 succeeds, both are attempted and the
final watermark is "7"; under a newest-first fetch it would instead end
at the oldest selected id. -/
theorem c3_amended :
    (∀ (st : ProcState) (u : String) (resp : Except Unit (List Tweet))
        (p q : String → Bool),
      (process_new_tweets st u resp p).st.mem = (process_new_tweets st u resp q).st.mem ∧
      (process_new_tweets st u resp p).st.disk = (process_new_tweets st u resp q).st.disk ∧
      (process_new_tweets st u resp p).published = (process_new_tweets st u resp q).published ∧
      (process_new_tweets st u resp p).saved = (process_new_tweets st u resp q).saved) ∧
    (∀ (st : ProcState) (u : String) (resp : Except Unit (List Tweet)) (p : String → Bool),
      (process_new_tweets st u resp p).st.mem u =
        ((filtered_tweets_of (st.mem u) (get_user_tweets resp)).getLast?).elim (st.mem u)
          (fun t => some t.id)) ∧
    ((process_new_tweets stW5 "u" (Except.ok [tweet6, tweet7]) pubFailSix).published =
        ["6", "7"] ∧
      (process_new_tweets stW5 "u" (Except.ok [tweet6, tweet7]) pubFailSix).count = 1 ∧
      (process_new_tweets stW5 "u" (Except.ok [tweet6, tweet7]) pubFailSix).st.mem "u" =
        some "7" ∧
      (process_new_tweets stW5 "u" (Except.ok [tweet6, tweet7]) pubFailSix).st.disk "u" =
        some "7") := by
  refine ⟨?_, ?_, by decide, by decide, by decide, by decide⟩
  · intro st u resp p q
    cases resp with
    | error e => exact ⟨rfl, rfl, rfl, rfl⟩
    | ok ts =>
      cases ts with
      | nil => exact ⟨rfl, rfl, rfl, rfl⟩
      | cons t0 rest =>
        cases h : (filtered_tweets_of (st.mem u) (t0 :: rest)).isEmpty with
        | true =>
          refine ⟨?_, ?_, ?_, ?_⟩ <;> simp [process_new_tweets, get_user_tweets, h]
        | false =>
          have hmem := foldl_pubStep_mem_indep
            (filtered_tweets_of (st.mem u) (t0 :: rest)) u p q st.mem 0 0 [] []
          refine ⟨?_, ?_, ?_, ?_⟩ <;>
            simp [process_new_tweets, get_user_tweets, h, hmem, foldl_pubStep_pub]
  · intro st u resp p
    cases resp with
    | error e =>
      simp [process_new_tweets, get_user_tweets, filtered_tweets_of, new_tweets_of_nil]
    | ok ts =>
      cases ts with
      | nil =>
        simp [process_new_tweets, get_user_tweets, filtered_tweets_of, new_tweets_of_nil]
      | cons t0 rest =>
        cases h : (filtered_tweets_of (st.mem u) (t0 :: rest)).isEmpty with
        | true =>
          rw [List.isEmpty_iff] at h
          simp [process_new_tweets, get_user_tweets, h,
            List.isEmpty_iff.mpr h]
        | false =>
          simp [process_new_tweets, get_user_tweets, h, foldl_pubStep_mem_last]

/-- Claim C1 (code bug): with the watermark at "5" for user "u" and two
consecutive polling cycles whose fetches both return the same
newest-first timeline — post 7 then post 6, the order the twitter
timeline call yields and the order line 310's bootstrap assumes — the
first cycle publishes 7 then 6 and leaves the watermark at "6" (line 335
overwrites it at every iteration), so the second cycle selects post 7
again ("7" > "6") and republishes it: the full publish trace is
["7", "6", "7"], forwarding post 7 twice and contradicting the
at-most-once property the watermark mechanism exists to provide. -/
theorem c1_double_forward :
    (run_cycles stW5 "u" [Except.ok [tweet7, tweet6], Except.ok [tweet7, tweet6]]
      (fun _ => true)).2 = ["7", "6", "7"] ∧
    List.count "7"
      (run_cycles stW5 "u" [Except.ok [tweet7, tweet6], Except.ok [tweet7, tweet6]]
        (fun _ => true)).2 = 2 :=
  ⟨by decide, by decide⟩
